import Mathlib

set_option linter.unusedVariables false

/-!
Shallow embedding of the abstract engine interface layer of
lib/sqlalchemy/engine/interfaces.py: the base Dialect class and its default
hook bodies, the typed reflection result structures, CreateEnginePlugin,
ExceptionContext and AdaptedConnection, together with theorems settling the
specification claims about this layer.

Conventions of the embedding: a method body consisting of a raise of
NotImplementedError is embedded as an Except.error result carrying
PyErr.notImplementedError; a method body that is only a docstring (no
executable statement) falls off the end and returns the Python value None,
embedded as Except.ok of the appropriate none value; TypedDict field
declarations and function return annotations, which are pure data in the
source, are embedded as PyAnn values where a claim is about the declared
type itself.
-/

/-- Exceptions relevant to this interface layer: the not-implemented signal
raised by unimplemented base hooks, and driver-level errors. -/
inductive PyErr where
  | notImplementedError : PyErr
  | dbapiError : String → PyErr
deriving DecidableEq, Repr

/-- Generic Python value, standing in for parameters and Any-typed data that
this interface layer treats as opaque. -/
inductive PyValue where
  | vNone : PyValue
  | vBool : Bool → PyValue
  | vInt : Int → PyValue
  | vStr : String → PyValue
deriving DecidableEq, Repr

/-- Embedding of the Python type annotations appearing in the TypedDict
declarations and method signatures of interfaces.py. -/
inductive PyAnn where
  | str : PyAnn
  | int : PyAnn
  | bool : PyAnn
  | noneType : PyAnn
  | anyType : PyAnn
  | optional : PyAnn → PyAnn
  | listOf : PyAnn → PyAnn
  | notRequired : PyAnn → PyAnn
  | dictStrAny : PyAnn
deriving DecidableEq, Repr

/-- Whether a declared annotation admits the Python value None for a field
value: Optional wrapping and the None type do; NotRequired only makes the
key omittable, so it defers to the inner annotation. -/
def PyAnn.admitsNone : PyAnn → Bool
  | .noneType => true
  | .optional _ => true
  | .notRequired t => t.admitsNone
  | _ => false

/-- Whether a declared annotation is a list type. -/
def PyAnn.isListOf : PyAnn → Bool
  | .listOf _ => true
  | _ => false

/-- A SQLAlchemy Connection object, opaque to this interface layer. -/
structure Connection where
  id : Nat
deriving DecidableEq, Repr

/-- A raw driver (DBAPI-level) connection object, opaque here. -/
structure DBAPIConnection where
  id : Nat
deriving DecidableEq, Repr

/-- A driver cursor object, opaque here. -/
structure DBAPICursor where
  id : Nat
deriving DecidableEq, Repr

/-- A fully constructed Engine object, opaque to this layer. -/
structure Engine where
  id : Nat
deriving DecidableEq, Repr

/-- A realized column type descriptor (TypeEngine, external collaborator),
opaque to this layer. -/
structure TypeEngine where
  name : String
deriving DecidableEq, Repr

/-- Dictionary of dialect-specific options, Dict of str to Any. -/
abbrev AnyDict := List (String × PyValue)

/-- ReflectedIdentity TypedDict: reflected IDENTITY structure of a column. -/
structure ReflectedIdentity where
  always : Bool
  on_null : Bool
  start : Int
  increment : Int
  minvalue : Int
  maxvalue : Int
  nominvalue : Bool
  nomaxvalue : Bool
  cycle : Bool
  cache : Option Int
  order : Bool
deriving DecidableEq, Repr

/-- ReflectedComputed TypedDict: reflected elements of a computed column. -/
structure ReflectedComputed where
  sqltext : String
  persisted : Bool
deriving DecidableEq, Repr

/-- ReflectedColumn TypedDict: reflected elements of one column.  NotRequired
keys are embedded as outer Option (key may be absent); Optional values as an
inner Option. -/
structure ReflectedColumn where
  name : String
  type : TypeEngine
  nullable : Bool
  default : String
  autoincrement : Option Bool
  comment : Option (Option String)
  computed : Option (Option ReflectedComputed)
  identity : Option (Option ReflectedIdentity)
  dialect_options : Option AnyDict
deriving DecidableEq, Repr

/-- ReflectedCheckConstraint TypedDict. -/
structure ReflectedCheckConstraint where
  name : Option String
  sqltext : String
  dialect_options : Option AnyDict
deriving DecidableEq, Repr

/-- ReflectedUniqueConstraint TypedDict. -/
structure ReflectedUniqueConstraint where
  name : Option String
  column_names : List String
  dialect_options : Option AnyDict
deriving DecidableEq, Repr

/-- ReflectedPrimaryKeyConstraint TypedDict. -/
structure ReflectedPrimaryKeyConstraint where
  name : Option String
  constrained_columns : List String
  dialect_options : Option AnyDict
deriving DecidableEq, Repr

/-- ReflectedForeignKeyConstraint TypedDict. -/
structure ReflectedForeignKeyConstraint where
  name : Option String
  constrained_columns : List String
  referred_schema : Option String
  referred_table : String
  referred_columns : List String
  dialect_options : Option AnyDict
deriving DecidableEq, Repr

/-- ReflectedIndex TypedDict. -/
structure ReflectedIndex where
  name : Option String
  column_names : List String
  unique : Bool
  duplicates_constraint : Option Bool
  include_columns : Option (List String)
  column_sorting : Option (List (String × List String))
  dialect_options : Option AnyDict
deriving DecidableEq, Repr

/-- ReflectedTableComment TypedDict: reflected comment of a table.  Its single
field is declared in the source as text of type str. -/
structure ReflectedTableComment where
  text : String
deriving DecidableEq, Repr

/-- Declared annotation of the text field of ReflectedTableComment, exactly as
written in the source: text has annotation str. -/
def ReflectedTableComment.textFieldType : PyAnn := PyAnn.str

/-- A Dialect class object (the class itself, as passed to classmethods such
as get_dialect_cls), opaque beyond identity. -/
structure DialectClass where
  name : String
deriving DecidableEq, Repr

/-- The driver module held by a concrete dialect as self.dbapi (external to
this excerpt): its module-level connect function. -/
structure DBAPI where
  connect : List PyValue → List (String × PyValue) → DBAPIConnection

/-- Modelled from the spec: the engine URL (class URL of engine/url.py, which
is not part of this excerpt) is opaque to this layer beyond exposing a
query-parameter mapping; the spec lists difference_update_query as the method
removing named query parameters. -/
structure URL where
  base : String
  query : List (String × String)
deriving DecidableEq, Repr

/-- Modelled from the spec: URL.difference_update_query(keys) returns a new
URL with the named query parameters removed and everything else unchanged. -/
def URL.difference_update_query (url : URL) (keys : List String) : URL :=
  { url with query := url.query.filter (fun kv => !(keys.contains kv.1)) }

/-- Base body of Dialect.get_columns: raise of the not-implemented signal. -/
def Dialect.get_columns (connection : Connection) (table_name : String)
    (schema : Option String) : Except PyErr (List ReflectedColumn) :=
  Except.error PyErr.notImplementedError

/-- Base body of Dialect.get_pk_constraint: raise of the not-implemented
signal. -/
def Dialect.get_pk_constraint (connection : Connection) (table_name : String)
    (schema : Option String) : Except PyErr ReflectedPrimaryKeyConstraint :=
  Except.error PyErr.notImplementedError

/-- Base body of Dialect.get_foreign_keys: raise of the not-implemented
signal. -/
def Dialect.get_foreign_keys (connection : Connection) (table_name : String)
    (schema : Option String) : Except PyErr (List ReflectedForeignKeyConstraint) :=
  Except.error PyErr.notImplementedError

/-- Base body of Dialect.get_table_names: raise of the not-implemented
signal. -/
def Dialect.get_table_names (connection : Connection)
    (schema : Option String) : Except PyErr (List String) :=
  Except.error PyErr.notImplementedError

/-- Base body of Dialect.get_temp_table_names: raise of the not-implemented
signal. -/
def Dialect.get_temp_table_names (connection : Connection)
    (schema : Option String) : Except PyErr (List String) :=
  Except.error PyErr.notImplementedError

/-- Base body of Dialect.get_view_names: raise of the not-implemented
signal. -/
def Dialect.get_view_names (connection : Connection)
    (schema : Option String) : Except PyErr (List String) :=
  Except.error PyErr.notImplementedError

/-- Base body of Dialect.get_sequence_names: raise of the not-implemented
signal. -/
def Dialect.get_sequence_names (connection : Connection)
    (schema : Option String) : Except PyErr (List String) :=
  Except.error PyErr.notImplementedError

/-- Base body of Dialect.get_temp_view_names: raise of the not-implemented
signal. -/
def Dialect.get_temp_view_names (connection : Connection)
    (schema : Option String) : Except PyErr (List String) :=
  Except.error PyErr.notImplementedError

/-- Base body of Dialect.get_view_definition: raise of the not-implemented
signal. -/
def Dialect.get_view_definition (connection : Connection) (view_name : String)
    (schema : Option String) : Except PyErr String :=
  Except.error PyErr.notImplementedError

/-- Base body of Dialect.get_indexes: raise of the not-implemented signal. -/
def Dialect.get_indexes (connection : Connection) (table_name : String)
    (schema : Option String) : Except PyErr (List ReflectedIndex) :=
  Except.error PyErr.notImplementedError

/-- Base body of Dialect.get_unique_constraints: raise of the not-implemented
signal. -/
def Dialect.get_unique_constraints (connection : Connection)
    (table_name : String) (schema : Option String) :
    Except PyErr (List ReflectedUniqueConstraint) :=
  Except.error PyErr.notImplementedError

/-- Base body of Dialect.get_check_constraints: raise of the not-implemented
signal. -/
def Dialect.get_check_constraints (connection : Connection)
    (table_name : String) (schema : Option String) :
    Except PyErr (List ReflectedCheckConstraint) :=
  Except.error PyErr.notImplementedError

/-- Base body of Dialect.get_table_options: the body holds only the docstring
and no raise statement, so the call falls off the end and returns the Python
value None (despite the declared return annotation Dict of str to Any). -/
def Dialect.get_table_options (connection : Connection) (table_name : String)
    (schema : Option String) : Except PyErr (Option AnyDict) :=
  Except.ok none

/-- Base body of Dialect.get_table_comment: raise of the not-implemented
signal (its docstring states this raise for dialects without comment
support). -/
def Dialect.get_table_comment (connection : Connection) (table_name : String)
    (schema : Option String) : Except PyErr ReflectedTableComment :=
  Except.error PyErr.notImplementedError

/-- Base body of Dialect.has_table: raise of the not-implemented signal. -/
def Dialect.has_table (connection : Connection) (table_name : String)
    (schema : Option String) : Except PyErr Bool :=
  Except.error PyErr.notImplementedError

/-- Base body of Dialect.has_index: raise of the not-implemented signal. -/
def Dialect.has_index (connection : Connection) (table_name : String)
    (index_name : String) (schema : Option String) : Except PyErr Bool :=
  Except.error PyErr.notImplementedError

/-- Base body of Dialect.has_sequence: raise of the not-implemented signal. -/
def Dialect.has_sequence (connection : Connection) (sequence_name : String)
    (schema : Option String) : Except PyErr Bool :=
  Except.error PyErr.notImplementedError

/-- The one-shot per-connection initializer callable that on_connect hooks may
return: it accepts the DBAPI connection and has no return value. -/
abbrev ConnInitCallable := DBAPIConnection → Unit

/-- Base body of Dialect.connect: the body holds only the docstring, so the
call returns the Python value None without raising and without invoking
self.dbapi.connect.  The dialect object is represented by the dbapi module it
would hold, so that the docstring default can be compared against it. -/
def Dialect.connect (dbapi : DBAPI) (cargs : List PyValue)
    (cparams : List (String × PyValue)) : Except PyErr (Option DBAPIConnection) :=
  Except.ok none

/-- The default connect behavior as worded by the spec and by the method
docstring of Dialect.connect: return self.dbapi.connect applied to cargs and
cparams, producing a driver connection. -/
def Dialect.connectSpecDefault (dbapi : DBAPI) (cargs : List PyValue)
    (cparams : List (String × PyValue)) : Except PyErr (Option DBAPIConnection) :=
  Except.ok (some (dbapi.connect cargs cparams))

/-- Base body of Dialect.on_connect: return None (no event listener is
generated). -/
def Dialect.on_connect : Except PyErr (Option ConnInitCallable) :=
  Except.ok none

/-- Base body of Dialect.on_connect_url: return self.on_connect(), the url
argument unused. -/
def Dialect.on_connect_url (url : URL) : Except PyErr (Option ConnInitCallable) :=
  Dialect.on_connect

/-- Base body of the classmethod Dialect.get_dialect_cls: return cls. -/
def Dialect.get_dialect_cls (cls : DialectClass) (url : URL) :
    Except PyErr DialectClass :=
  Except.ok cls

/-- Base body of the classmethod Dialect.get_async_dialect_cls: return
cls.get_dialect_cls(url). -/
def Dialect.get_async_dialect_cls (cls : DialectClass) (url : URL) :
    Except PyErr DialectClass :=
  Dialect.get_dialect_cls cls url

/-- Base body of the classmethod Dialect.load_provisioning: only a docstring,
so the call returns None without raising. -/
def Dialect.load_provisioning : Except PyErr Unit :=
  Except.ok ()

/-- Base body of the classmethod Dialect.engine_created: only a docstring, so
the call returns None without raising. -/
def Dialect.engine_created (engine : Engine) : Except PyErr Unit :=
  Except.ok ()

/-- An opaque two-phase transaction id; its format is dialect-defined (the
source annotates it as Any). -/
abbrev Xid := PyValue

/-- Base body of Dialect.create_xid: raise of the not-implemented signal. -/
def Dialect.create_xid : Except PyErr Xid :=
  Except.error PyErr.notImplementedError

/-- Base body of Dialect.do_begin_twophase: raise of the not-implemented
signal. -/
def Dialect.do_begin_twophase (connection : Connection) (xid : Xid) :
    Except PyErr Unit :=
  Except.error PyErr.notImplementedError

/-- Base body of Dialect.do_prepare_twophase: raise of the not-implemented
signal. -/
def Dialect.do_prepare_twophase (connection : Connection) (xid : Xid) :
    Except PyErr Unit :=
  Except.error PyErr.notImplementedError

/-- Base body of Dialect.do_rollback_twophase: raise of the not-implemented
signal. -/
def Dialect.do_rollback_twophase (connection : Connection) (xid : Xid)
    (is_prepared : Bool) (recover : Bool) : Except PyErr Unit :=
  Except.error PyErr.notImplementedError

/-- Base body of Dialect.do_commit_twophase: raise of the not-implemented
signal. -/
def Dialect.do_commit_twophase (connection : Connection) (xid : Xid)
    (is_prepared : Bool) (recover : Bool) : Except PyErr Unit :=
  Except.error PyErr.notImplementedError

/-- Base body of Dialect.do_recover_twophase: raise of the not-implemented
signal.  Its docstring reads: Recover list of uncommitted prepared two phase
transaction identifiers on the given connection. -/
def Dialect.do_recover_twophase (connection : Connection) :
    Except PyErr (List Xid) :=
  Except.error PyErr.notImplementedError

/-- Return annotation of Dialect.do_recover_twophase exactly as written in
the source signature: None. -/
def Dialect.do_recover_twophase_returnAnn : PyAnn := PyAnn.noneType

/-- Modelled from the spec: the return contract of do_recover_twophase per
the spec (do_recover_twophase yields a list of pending transaction ids) and
per the method docstring; transaction ids are dialect-defined opaque values,
annotated Any. -/
def Dialect.do_recover_twophase_contractAnn : PyAnn :=
  PyAnn.listOf PyAnn.anyType

/-- Keyword arguments passed to create_engine, as a mutable dictionary whose
post-call state the embedding returns explicitly. -/
abbrev Kwargs := List (String × PyValue)

/-- Instance state of a CreateEnginePlugin after construction: the base
constructor stores only the URL on the instance. -/
structure CreateEnginePlugin where
  url : URL
deriving DecidableEq, Repr

/-- Base body of the CreateEnginePlugin constructor: the single statement
self.url = url.  The kwargs dictionary is passed by reference and may be
mutated in place, so the embedding returns its post-call state alongside the
constructed instance; the base body never touches it. -/
def CreateEnginePlugin.init (url : URL) (kwargs : Kwargs) :
    CreateEnginePlugin × Kwargs :=
  ({ url := url }, kwargs)

/-- Base body of CreateEnginePlugin.update_url: the body holds only the
docstring, so the call returns the Python value None rather than a URL. -/
def CreateEnginePlugin.update_url (self : CreateEnginePlugin) (url : URL) :
    Option URL :=
  none

/-- An update_url implementation following the documented pattern for a plugin
with a given list of plugin-specific query-parameter keys: return
url.difference_update_query(keys).  The base class defines no plugin-specific
keys, so its key list is empty. -/
def CreateEnginePlugin.update_url_via_difference (keys : List String)
    (url : URL) : URL :=
  url.difference_update_query keys

/-- In-flight error snapshot (class ExceptionContext).  Fields mirror the
class attributes; is_disconnect is None until classification runs and then
holds the boolean classification. -/
structure ExceptionContext where
  connection : Option Connection
  engine : Option Engine
  cursor : Option DBAPICursor
  statement : Option String
  parameters : Option (List PyValue)
  original_exception : Option PyErr
  sqlalchemy_exception : Option PyErr
  chained_exception : Option PyErr
  execution_context : Option Nat
  is_disconnect : Option Bool
  invalidate_pool_on_disconnect : Bool
deriving DecidableEq, Repr

/-- Class-attribute defaults of ExceptionContext exactly as declared in the
source: every informational member defaults to None and
invalidate_pool_on_disconnect defaults to True. -/
def ExceptionContext.defaults : ExceptionContext :=
  { connection := none
    engine := none
    cursor := none
    statement := none
    parameters := none
    original_exception := none
    sqlalchemy_exception := none
    chained_exception := none
    execution_context := none
    is_disconnect := none
    invalidate_pool_on_disconnect := true }

/-- Modelled from the spec: the engine error-interception site (outside this
excerpt) constructs the ExceptionContext for a caught driver exception,
filling original_exception and the is_disconnect classification; every field
not assigned there retains its class-attribute default. -/
def ExceptionContext.forError (orig : PyErr) (disconnect : Bool) :
    ExceptionContext :=
  { ExceptionContext.defaults with
    original_exception := some orig
    is_disconnect := some disconnect }

/-- Assignment to the mutable invalidate_pool_on_disconnect field, as an
error-handling hook may perform before the context is consumed. -/
def ExceptionContext.set_invalidate_pool_on_disconnect
    (ctx : ExceptionContext) (b : Bool) : ExceptionContext :=
  { ctx with invalidate_pool_on_disconnect := b }

/-- An awaitable is modelled by its resolution outcome: the value it resolves
to, or the exception it fails with. -/
abbrev Awaitable (α : Type) := Except PyErr α

/-- Modelled from the spec: await_only (util.concurrency, external to this
excerpt) blocks the calling cooperative context until the awaitable resolves,
returning its result; a failure of the awaitable propagates to the caller as
a synchronous-style raised exception.  On the resolution-outcome model this
is the outcome itself. -/
def await_only {α : Type} (aw : Awaitable α) : Except PyErr α := aw

/-- AdaptedConnection: sync-style facade over an asyncio driver connection,
holding the wrapped native connection in its single slot. -/
structure AdaptedConnection where
  _connection : DBAPIConnection
deriving DecidableEq, Repr

/-- Property AdaptedConnection.driver_connection: return self._connection,
the connection object as returned by the driver. -/
def AdaptedConnection.driver_connection (self : AdaptedConnection) :
    DBAPIConnection :=
  self._connection

/-- Body of AdaptedConnection.run_async: return await_only(fn(self._connection)). -/
def AdaptedConnection.run_async {α : Type} (self : AdaptedConnection)
    (fn : DBAPIConnection → Awaitable α) : Except PyErr α :=
  await_only (fn self._connection)

/-- A concrete driver module whose connect function yields the driver
connection with id 7, regardless of arguments. -/
def sampleDBAPI : DBAPI :=
  ⟨fun _ _ => ⟨7⟩⟩

/-- A concrete URL carrying one ordinary query parameter and no
plugin-specific parameters. -/
def sampleURL : URL :=
  ⟨"postgresql://scott@localhost/test", [("timeout", "30")]⟩

/-- C1: of the seventeen reflection hooks on the base Dialect class, sixteen
raise the not-implemented signal for every connection, name and optional
schema, but get_table_options does not: its body lacks the raise statement,
so the call returns None, diverging from the spec sentence that every
reflection hook fails with the not-implemented signal. -/
theorem Dialect.reflection_hooks_raise_except_table_options
    (conn : Connection) (nm ix : String) (sch : Option String) :
    Dialect.get_columns conn nm sch = Except.error PyErr.notImplementedError ∧
    Dialect.get_pk_constraint conn nm sch = Except.error PyErr.notImplementedError ∧
    Dialect.get_foreign_keys conn nm sch = Except.error PyErr.notImplementedError ∧
    Dialect.get_table_names conn sch = Except.error PyErr.notImplementedError ∧
    Dialect.get_temp_table_names conn sch = Except.error PyErr.notImplementedError ∧
    Dialect.get_view_names conn sch = Except.error PyErr.notImplementedError ∧
    Dialect.get_sequence_names conn sch = Except.error PyErr.notImplementedError ∧
    Dialect.get_temp_view_names conn sch = Except.error PyErr.notImplementedError ∧
    Dialect.get_view_definition conn nm sch = Except.error PyErr.notImplementedError ∧
    Dialect.get_indexes conn nm sch = Except.error PyErr.notImplementedError ∧
    Dialect.get_unique_constraints conn nm sch = Except.error PyErr.notImplementedError ∧
    Dialect.get_check_constraints conn nm sch = Except.error PyErr.notImplementedError ∧
    Dialect.get_table_comment conn nm sch = Except.error PyErr.notImplementedError ∧
    Dialect.has_table conn nm sch = Except.error PyErr.notImplementedError ∧
    Dialect.has_index conn nm ix sch = Except.error PyErr.notImplementedError ∧
    Dialect.has_sequence conn nm sch = Except.error PyErr.notImplementedError ∧
    Dialect.get_table_options conn nm sch = Except.ok none :=
  ⟨rfl, rfl, rfl, rfl, rfl, rfl, rfl, rfl, rfl, rfl, rfl, rfl, rfl, rfl, rfl,
    rfl, rfl⟩

/-- C2: run_async applied to fn returns exactly the resolution of the
awaitable produced by fn on the wrapped driver connection (the one exposed by
driver_connection): a resolved value is returned as is, and a failure of the
awaitable propagates to the caller as the raised exception. -/
theorem AdaptedConnection.run_async_resolves_exactly {α : Type}
    (self : AdaptedConnection) (fn : DBAPIConnection → Awaitable α) :
    (∀ v : α, fn self.driver_connection = Except.ok v →
      self.run_async fn = Except.ok v) ∧
    (∀ e : PyErr, fn self.driver_connection = Except.error e →
      self.run_async fn = Except.error e) := by
  refine ⟨fun v h => ?_, fun e h => ?_⟩ <;>
    simpa [AdaptedConnection.run_async, await_only,
      AdaptedConnection.driver_connection] using h

/-- Witness for C2: at the adapted connection wrapping driver connection 3,
an awaitable resolving to the connection id returns 3, and a failing
awaitable propagates its error. -/
theorem AdaptedConnection.run_async_resolves_exactly_witness :
    AdaptedConnection.run_async ⟨⟨3⟩⟩ (fun c => Except.ok c.id) =
      Except.ok 3 ∧
    AdaptedConnection.run_async ⟨⟨3⟩⟩
        (fun _ => (Except.error (PyErr.dbapiError "lost") : Awaitable Nat)) =
      Except.error (PyErr.dbapiError "lost") :=
  ⟨(AdaptedConnection.run_async_resolves_exactly ⟨⟨3⟩⟩
      (fun c => Except.ok c.id)).1 3 rfl,
    (AdaptedConnection.run_async_resolves_exactly ⟨⟨3⟩⟩
      (fun _ => (Except.error (PyErr.dbapiError "lost") : Awaitable Nat))).2
      (PyErr.dbapiError "lost") rfl⟩

/-- C3 counterexample: on the base Dialect class, connect does not establish
a connection via the DBAPI connect function: with a driver module whose
connect yields connection 7, the base connect call returns None rather than
that connection. -/
theorem Dialect.connect_base_differs_from_dbapi_connect :
    Dialect.connect sampleDBAPI [] [] ≠
      Dialect.connectSpecDefault sampleDBAPI [] [] := by
  simp [Dialect.connect, Dialect.connectSpecDefault]

/-- C3 amended: each of the five hooks connect, on_connect, get_dialect_cls,
load_provisioning and engine_created has a usable default that never raises
the not-implemented signal; the base connect body is a no-op returning None,
the DBAPI-invoking default quoted in its docstring being supplied outside
this excerpt. -/
theorem Dialect.five_hooks_usable_defaults (dbapi : DBAPI)
    (cargs : List PyValue) (cparams : List (String × PyValue))
    (cls : DialectClass) (url : URL) (engine : Engine) :
    Dialect.connect dbapi cargs cparams = Except.ok none ∧
    Dialect.on_connect = Except.ok none ∧
    Dialect.get_dialect_cls cls url = Except.ok cls ∧
    Dialect.load_provisioning = Except.ok () ∧
    Dialect.engine_created engine = Except.ok () :=
  ⟨rfl, rfl, rfl, rfl, rfl⟩

/-- C4 counterexample: on a URL already missing plugin-specific parameters,
the base CreateEnginePlugin update_url does not return the URL unchanged: it
returns None (the method body is only its docstring). -/
theorem CreateEnginePlugin.update_url_base_not_identity :
    CreateEnginePlugin.update_url ⟨sampleURL⟩ sampleURL ≠ some sampleURL := by
  simp [CreateEnginePlugin.update_url]

/-- C4 amended: an update_url implemented by the documented
difference_update_query pattern for a list of plugin-specific parameter keys
yields a URL in which a query pair survives exactly when its key is not
plugin-specific, with the non-query part of the URL untouched; the operation
is idempotent, and on a URL already missing those parameters it returns the
URL unchanged.  The base class, which defines no plugin-specific parameters,
instead has an update_url that returns None rather than a URL. -/
theorem CreateEnginePlugin.update_url_strips_exactly
    (self : CreateEnginePlugin) (keys : List String) (url : URL) :
    (∀ kv : String × String,
      kv ∈ (CreateEnginePlugin.update_url_via_difference keys url).query ↔
        kv ∈ url.query ∧ kv.1 ∉ keys) ∧
    (CreateEnginePlugin.update_url_via_difference keys url).base = url.base ∧
    CreateEnginePlugin.update_url_via_difference keys
        (CreateEnginePlugin.update_url_via_difference keys url) =
      CreateEnginePlugin.update_url_via_difference keys url ∧
    ((∀ kv ∈ url.query, kv.1 ∉ keys) →
      CreateEnginePlugin.update_url_via_difference keys url = url) ∧
    CreateEnginePlugin.update_url self url = none := by
  obtain ⟨b, q⟩ := url
  refine ⟨fun kv => ?_, rfl, ?_, fun h => ?_, rfl⟩
  · simp [CreateEnginePlugin.update_url_via_difference,
      URL.difference_update_query, List.mem_filter]
  · simp [CreateEnginePlugin.update_url_via_difference,
      URL.difference_update_query, List.filter_filter]
  · simp only [CreateEnginePlugin.update_url_via_difference,
      URL.difference_update_query, URL.mk.injEq, true_and]
    exact List.filter_eq_self.mpr fun kv hkv => by
      simpa using h kv hkv

/-- Witness for C4 amended: with plugin key logger and the sample URL, which
does not carry that parameter, the documented pattern returns the URL
unchanged and the base update_url returns None. -/
theorem CreateEnginePlugin.update_url_strips_exactly_witness :
    CreateEnginePlugin.update_url_via_difference ["logger"] sampleURL =
      sampleURL ∧
    CreateEnginePlugin.update_url ⟨sampleURL⟩ sampleURL = none := by
  have h := CreateEnginePlugin.update_url_strips_exactly ⟨sampleURL⟩
    ["logger"] sampleURL
  exact ⟨h.2.2.2.1 (by decide), h.2.2.2.2⟩

/-- C5 counterexample: the declared annotation of the text field of
ReflectedTableComment is plain str, which does not admit None, so the clause
that the result type admits None as the value of its text field fails on the
declaration. -/
theorem ReflectedTableComment.text_does_not_admit_none :
    PyAnn.admitsNone ReflectedTableComment.textFieldType = false := by
  decide

/-- C5 amended: for any table, the base Dialect.get_table_comment raises the
not-implemented signal, so a table with no comment never yields an
empty-string placeholder from the base class; the ReflectedTableComment type
as declared requires text to be a str and does not admit None for it. -/
theorem Dialect.get_table_comment_base_raises (conn : Connection)
    (nm : String) (sch : Option String) :
    Dialect.get_table_comment conn nm sch =
      Except.error PyErr.notImplementedError ∧
    PyAnn.admitsNone ReflectedTableComment.textFieldType = false :=
  ⟨rfl, by decide⟩

/-- C6: on the base Dialect class, get_dialect_cls returns the class it was
invoked on for every URL, and get_async_dialect_cls returns exactly the
result of get_dialect_cls on the same class and URL, so both resolve to the
same concrete dialect class by default. -/
theorem Dialect.dialect_cls_resolution_identity (cls : DialectClass)
    (url : URL) :
    Dialect.get_dialect_cls cls url = Except.ok cls ∧
    Dialect.get_async_dialect_cls cls url = Dialect.get_dialect_cls cls url :=
  ⟨rfl, rfl⟩

/-- C7: divergence between the declared signature and the documented contract
of Dialect.do_recover_twophase: the base body raises the not-implemented
signal, and the return annotation as written is None and is not a list type,
while the contract worded by the spec and by the method docstring (recover
the list of uncommitted prepared transaction identifiers) is a list type. -/
theorem Dialect.do_recover_twophase_annotation_divergence
    (conn : Connection) :
    Dialect.do_recover_twophase conn =
      Except.error PyErr.notImplementedError ∧
    Dialect.do_recover_twophase_returnAnn = PyAnn.noneType ∧
    PyAnn.isListOf Dialect.do_recover_twophase_returnAnn = false ∧
    PyAnn.isListOf Dialect.do_recover_twophase_contractAnn = true :=
  ⟨rfl, rfl, by decide, by decide⟩

/-- C8: an ExceptionContext constructed for a driver exception classified as
a disconnect carries invalidate_pool_on_disconnect True initially, and an
error-handling hook overwriting it to False before consumption yields a
context whose flag is False while the classification and the original
exception are unchanged. -/
theorem ExceptionContext.pool_invalidation_default_and_overwrite (e : PyErr) :
    (ExceptionContext.forError e true).invalidate_pool_on_disconnect = true ∧
    ((ExceptionContext.forError e true).set_invalidate_pool_on_disconnect
        false).invalidate_pool_on_disconnect = false ∧
    ((ExceptionContext.forError e true).set_invalidate_pool_on_disconnect
        false).is_disconnect = some true ∧
    ((ExceptionContext.forError e true).set_invalidate_pool_on_disconnect
        false).original_exception = some e :=
  ⟨rfl, rfl, rfl, rfl⟩

/-- C9: the base CreateEnginePlugin constructor stores the given URL on the
instance and leaves the kwargs mapping completely unchanged: no key is
removed and no value is mutated. -/
theorem CreateEnginePlugin.init_stores_url_preserves_kwargs (url : URL)
    (kwargs : Kwargs) :
    (CreateEnginePlugin.init url kwargs).1.url = url ∧
    (CreateEnginePlugin.init url kwargs).2 = kwargs :=
  ⟨rfl, rfl⟩

/-- C10: on the base Dialect class, on_connect_url returns exactly the result
of on_connect for every URL (the URL argument is ignored), and since the base
on_connect returns None, the default on_connect_url is None for every URL:
no per-connection initializer is generated. -/
theorem Dialect.on_connect_url_defers_to_on_connect (url : URL) :
    Dialect.on_connect_url url = Dialect.on_connect ∧
    Dialect.on_connect_url url = Except.ok none :=
  ⟨rfl, rfl⟩
